import Mathlib

/-!
Verification of the gl-matrix fork's numeric kernel (common.ts, vec2/vec3/vec4,
mat2d, quat, rect, quad2d) against its natural-language specification.

JavaScript numbers are embedded as rationals (`ℚ`): every operation checked
here uses only field arithmetic, absolute value, `min`/`max`, floors and
comparisons, which the source performs exactly on the inputs considered.
Transcendental functions (`Math.sqrt`, `Math.sin`, `Math.acos`) are taken as
explicit function parameters of the definitions that mention them, and the
theorems assume only the algebraic facts about them that the source relies on.
Functions returning booleans are embedded as `Bool`-valued functions; the
in-place output parameter of the source is kept only where a call writes the
output partially (the rect functions), and dropped where every component of
the output is overwritten, in which case the result is the returned value.
-/

namespace GlMatrix

set_option linter.unusedVariables false

/-- `EPSILON` from common.ts: the global tolerance constant `0.000001`. -/
def EPSILON : ℚ := 1 / 1000000

/-- `equals` from common.ts:
`Math.abs(a - b) <= EPSILON * Math.max(1.0, Math.abs(a), Math.abs(b))`. -/
def equals (a b : ℚ) : Bool :=
  decide (|a - b| ≤ EPSILON * max 1 (max |a| |b|))

/-- A `Vec2`: two numbers, component order x, y. -/
structure Vec2 where
  x : ℚ
  y : ℚ
deriving DecidableEq

/-- A `Vec3`: three numbers, component order x, y, z. -/
structure Vec3 where
  x : ℚ
  y : ℚ
  z : ℚ
deriving DecidableEq

/-- A `Vec4`: four numbers, component order x, y, z, w. -/
structure Vec4 where
  x : ℚ
  y : ℚ
  z : ℚ
  w : ℚ
deriving DecidableEq

/-- A `Quat` is stored exactly like a `Vec4` (x, y, z, w with w the scalar
part); the quat module reuses the vec4 functions for the shared operations. -/
abbrev Quat := Vec4

/-- A `Mat2d` from mat2d.ts: six numbers, column-major 2x2 linear part
(`m0..m3`) plus translation (`m4`, `m5`). -/
structure Mat2d where
  m0 : ℚ
  m1 : ℚ
  m2 : ℚ
  m3 : ℚ
  m4 : ℚ
  m5 : ℚ
deriving DecidableEq

/-- A `Mat2` from mat2.ts: four numbers, column-major 2x2. -/
structure Mat2 where
  m0 : ℚ
  m1 : ℚ
  m2 : ℚ
  m3 : ℚ
deriving DecidableEq

/-- A `Rect` from rect.ts: top-left corner position plus size. -/
structure Rect where
  x : ℚ
  y : ℚ
  width : ℚ
  height : ℚ
deriving DecidableEq

/-- A `Quad2d` from quad2d.ts: scaling/shearing part `ij` and translation `k`. -/
structure Quad2d where
  ij : Mat2
  k : Vec2
deriving DecidableEq

/-- `vec2Equals` from vec2.ts: the scalar tolerance test on each of the two
component pairs, conjoined. -/
def vec2Equals (a b : Vec2) : Bool :=
  decide (|a.x - b.x| ≤ EPSILON * max 1 (max |a.x| |b.x|)) &&
  decide (|a.y - b.y| ≤ EPSILON * max 1 (max |a.y| |b.y|))

/-- `vec3Equals` from vec3.ts: the scalar tolerance test on each of the three
component pairs, conjoined. -/
def vec3Equals (a b : Vec3) : Bool :=
  decide (|a.x - b.x| ≤ EPSILON * max 1 (max |a.x| |b.x|)) &&
  decide (|a.y - b.y| ≤ EPSILON * max 1 (max |a.y| |b.y|)) &&
  decide (|a.z - b.z| ≤ EPSILON * max 1 (max |a.z| |b.z|))

/-- `vec4Equals` from vec4.ts: the scalar tolerance test on each of the four
component pairs, conjoined. -/
def vec4Equals (a b : Vec4) : Bool :=
  decide (|a.x - b.x| ≤ EPSILON * max 1 (max |a.x| |b.x|)) &&
  decide (|a.y - b.y| ≤ EPSILON * max 1 (max |a.y| |b.y|)) &&
  decide (|a.z - b.z| ≤ EPSILON * max 1 (max |a.z| |b.z|)) &&
  decide (|a.w - b.w| ≤ EPSILON * max 1 (max |a.w| |b.w|))

/-- `mat2dEquals` from mat2d.ts: the scalar tolerance test on each of the six
component pairs, conjoined. -/
def mat2dEquals (a b : Mat2d) : Bool :=
  decide (|a.m0 - b.m0| ≤ EPSILON * max 1 (max |a.m0| |b.m0|)) &&
  decide (|a.m1 - b.m1| ≤ EPSILON * max 1 (max |a.m1| |b.m1|)) &&
  decide (|a.m2 - b.m2| ≤ EPSILON * max 1 (max |a.m2| |b.m2|)) &&
  decide (|a.m3 - b.m3| ≤ EPSILON * max 1 (max |a.m3| |b.m3|)) &&
  decide (|a.m4 - b.m4| ≤ EPSILON * max 1 (max |a.m4| |b.m4|)) &&
  decide (|a.m5 - b.m5| ≤ EPSILON * max 1 (max |a.m5| |b.m5|))

/-- `vec4Dot` from vec4.ts. -/
def vec4Dot (a b : Vec4) : ℚ :=
  a.x * b.x + a.y * b.y + a.z * b.z + a.w * b.w

/-- `quatDot` from quat.ts: `export const quatDot = vec4Dot`. -/
def quatDot : Quat → Quat → ℚ := vec4Dot

/-- `quatEquals` from quat.ts:
`Math.abs(quatDot(a, b)) >= 1 - EPSILON` — an aggregate dot-product test,
unlike the component-wise vec/mat equality tests. -/
def quatEquals (a b : Quat) : Bool :=
  decide (1 - EPSILON ≤ |quatDot a b|)

/-- `vec2TransformMat2d` from vec2.ts:
`out = (m0*x + m2*y + m4, m1*x + m3*y + m5)`. -/
def vec2TransformMat2d (a : Vec2) (m : Mat2d) : Vec2 :=
  ⟨m.m0 * a.x + m.m2 * a.y + m.m4, m.m1 * a.x + m.m3 * a.y + m.m5⟩

/-- `rectCreate` from rect.ts: `{x: 0, y: 0, width: 1, height: 1}`. -/
def rectCreate : Rect :=
  ⟨0, 0, 1, 1⟩

/-- `rectCenterX` from rect.ts: `rect.x + rect.width / 2`. -/
def rectCenterX (rect : Rect) : ℚ :=
  rect.x + rect.width / 2

/-- `rectCenterY` from rect.ts: `rect.y + rect.height / 2`. -/
def rectCenterY (rect : Rect) : ℚ :=
  rect.y + rect.height / 2

/-- `rectCenter` from rect.ts: `vec2Set(out, rectCenterX(rect), rectCenterY(rect))`
(`vec2Set` overwrites both components of its output). -/
def rectCenter (rect : Rect) : Vec2 :=
  ⟨rectCenterX rect, rectCenterY rect⟩

/-- `rectSetCenterX` from rect.ts: writes `out.x = cx - rect.width / 2`,
leaving the other fields of `out` as they are. -/
def rectSetCenterX (out rect : Rect) (cx : ℚ) : Rect :=
  { out with x := cx - rect.width / 2 }

/-- `rectSetCenterY` from rect.ts: writes `out.y = cy - rect.height / 2`,
leaving the other fields of `out` as they are. -/
def rectSetCenterY (out rect : Rect) (cy : ℚ) : Rect :=
  { out with y := cy - rect.height / 2 }

/-- `rectSetCenter` from rect.ts — the source calls `rectSetCenterX` twice,
first with `center[0]`, then again (not `rectSetCenterY`) with `center[1]`.
Neither call writes `width`, so reading `rect` before or after the first
write is equivalent, and this composition also models the aliased in-place
call `rectSetCenter(r, r, c)`. -/
def rectSetCenter (out rect : Rect) (center : Vec2) : Rect :=
  rectSetCenterX (rectSetCenterX out rect center.x) rect center.y

/-- `rectCopyCenter` from rect.ts: `rectSetCenterX` with the target's center
x, then `rectSetCenterY` with the target's center y. `rectSetCenterX` writes
neither `width` nor `height`, so this composition is also the aliased call
`rectCopyCenter(out, out, target)` of `rectFit`. -/
def rectCopyCenter (out source target : Rect) : Rect :=
  rectSetCenterY (rectSetCenterX out source (rectCenterX target)) source
    (rectCenterY target)

/-- `rectFit` from rect.ts: scale the source size by
`compare(target.width / source.width, target.height / source.height)` and
recenter on the target (the source calls `rectCopyCenter(out, out, target)`). -/
def rectFit (out source target : Rect) (compare : ℚ → ℚ → ℚ) : Rect :=
  let sx := target.width / source.width
  let sy := target.height / source.height
  let s := compare sx sy
  let out1 : Rect := { out with width := source.width * s, height := source.height * s }
  rectCopyCenter out1 out1 target

/-- `rectContain` from rect.ts: `rectFit(out, source, target, Math.min)`. -/
def rectContain (out source target : Rect) : Rect :=
  rectFit out source target min

/-- `rectUntransformMat2d` from rect.ts: linear part
`diag(target.width / source.width, target.height / source.height)`,
translation the difference of the centers. Every component of `out` is
written, so the result is the returned value. -/
def rectUntransformMat2d (source target : Rect) : Mat2d :=
  { m0 := target.width / source.width
    m1 := 0
    m2 := 0
    m3 := target.height / source.height
    m4 := rectCenterX target - rectCenterX source
    m5 := rectCenterY target - rectCenterY source }

/-- `mat2dIdentity` from mat2d.ts (fully overwrites its output). -/
def mat2dIdentity : Mat2d :=
  ⟨1, 0, 0, 1, 0, 0⟩

/-- `mat2dDeterminant` from mat2d.ts: `a[0] * a[3] - a[1] * a[2]`. -/
def mat2dDeterminant (a : Mat2d) : ℚ :=
  a.m0 * a.m3 - a.m1 * a.m2

/-- `mat2dMultiply` from mat2d.ts: the affine product `a * b`
(`multiply(out, a, b)` applies `b` first, then `a`). -/
def mat2dMultiply (a b : Mat2d) : Mat2d :=
  ⟨a.m0 * b.m0 + a.m2 * b.m1,
   a.m1 * b.m0 + a.m3 * b.m1,
   a.m0 * b.m2 + a.m2 * b.m3,
   a.m1 * b.m2 + a.m3 * b.m3,
   a.m0 * b.m4 + a.m2 * b.m5 + a.m4,
   a.m1 * b.m4 + a.m3 * b.m5 + a.m5⟩

/-- `mat2dInvert` from mat2d.ts. The source returns `null` before writing
anything to `out` when the determinant is zero; the embedding returns the
state of the `out` buffer after the call together with the returned value
(`none` standing for `null`). -/
def mat2dInvert (out a : Mat2d) : Mat2d × Option Mat2d :=
  let det := a.m0 * a.m3 - a.m1 * a.m2
  if det = 0 then (out, none)
  else
    let d := 1 / det
    let r : Mat2d :=
      ⟨a.m3 * d, -a.m1 * d, -a.m2 * d, a.m0 * d,
       (a.m2 * a.m5 - a.m3 * a.m4) * d, (a.m1 * a.m4 - a.m0 * a.m5) * d⟩
    (r, some r)

/-- `mat2Multiply` from mat2.ts: the standard column-major 2x2 matrix
product `a * b` (`multiply(out, a, b)` with element index `2*col + row`):
`out[0] = a0*b0 + a2*b1`, `out[1] = a1*b0 + a3*b1`, `out[2] = a0*b2 + a2*b3`,
`out[3] = a1*b2 + a3*b3`. -/
def mat2Multiply (a b : Mat2) : Mat2 :=
  ⟨a.m0 * b.m0 + a.m2 * b.m1,
   a.m1 * b.m0 + a.m3 * b.m1,
   a.m0 * b.m2 + a.m2 * b.m3,
   a.m1 * b.m2 + a.m3 * b.m3⟩

/-- The `matrix as Mat2` cast of quad2d.ts: a `Mat2d` read through the `Mat2`
interface sees its first four entries (the linear part). -/
def mat2dLinear (m : Mat2d) : Mat2 :=
  ⟨m.m0, m.m1, m.m2, m.m3⟩

/-- `quad2dFromRect` from quad2d.ts: `ij = diag(width/2, height/2)`, `k` the
rect's center. -/
def quad2dFromRect (rect : Rect) : Quad2d :=
  let w := rect.width / 2
  let h := rect.height / 2
  { ij := ⟨w, 0, 0, h⟩, k := ⟨rect.x + w, rect.y + h⟩ }

/-- `quad2dTransformMat2d` from quad2d.ts:
`mat2Multiply(out.ij, quad.ij, matrix as Mat2)` and
`out.k = quad.k + (matrix[4], matrix[5])`. -/
def quad2dTransformMat2d (quad : Quad2d) (matrix : Mat2d) : Quad2d :=
  { ij := mat2Multiply quad.ij (mat2dLinear matrix)
    k := ⟨quad.k.x + matrix.m4, quad.k.y + matrix.m5⟩ }

/-- `vec2Normalize` from vec2.ts, with `Math.sqrt` as a parameter: the
squared length is taken as the scale when the `len > 0` guard fails. -/
def vec2Normalize (sqrt : ℚ → ℚ) (a : Vec2) : Vec2 :=
  let len0 := a.x * a.x + a.y * a.y
  let len := if len0 > 0 then 1 / sqrt len0 else len0
  ⟨a.x * len, a.y * len⟩

/-- `vec3Normalize` from vec3.ts, with `Math.sqrt` as a parameter. -/
def vec3Normalize (sqrt : ℚ → ℚ) (a : Vec3) : Vec3 :=
  let len0 := a.x * a.x + a.y * a.y + a.z * a.z
  let len := if len0 > 0 then 1 / sqrt len0 else len0
  ⟨a.x * len, a.y * len, a.z * len⟩

/-- `vec4Normalize` from vec4.ts, with `Math.sqrt` as a parameter. -/
def vec4Normalize (sqrt : ℚ → ℚ) (a : Vec4) : Vec4 :=
  let len0 := a.x * a.x + a.y * a.y + a.z * a.z + a.w * a.w
  let len := if len0 > 0 then 1 / sqrt len0 else len0
  ⟨a.x * len, a.y * len, a.z * len, a.w * len⟩

/-- `quatNormalize` from quat.ts: `export const quatNormalize = vec4Normalize`. -/
def quatNormalize : (ℚ → ℚ) → Vec4 → Vec4 := vec4Normalize

/-- `quatSlerp` from quat.ts, with `Math.acos` and `Math.sin` as parameters.
`c0` is the initial cosine; when it is negative the second operand and the
cosine are negated (shortest-path selection); `p0..p3` are the possibly
negated components of `b`. The slerp coefficients are used when
`1 - cosom > EPSILON`, the linear-interpolation fallback otherwise. -/
def quatSlerp (acos sin : ℚ → ℚ) (a b : Quat) (t : ℚ) : Quat :=
  let c0 := a.x * b.x + a.y * b.y + a.z * b.z + a.w * b.w
  let cosom := if c0 < 0 then -c0 else c0
  let p0 := if c0 < 0 then -b.x else b.x
  let p1 := if c0 < 0 then -b.y else b.y
  let p2 := if c0 < 0 then -b.z else b.z
  let p3 := if c0 < 0 then -b.w else b.w
  let scales : ℚ × ℚ :=
    if 1 - cosom > EPSILON then
      let omega := acos cosom
      let sinom := sin omega
      (sin ((1 - t) * omega) / sinom, sin (t * omega) / sinom)
    else
      (1 - t, t)
  ⟨scales.1 * a.x + scales.2 * p0,
   scales.1 * a.y + scales.2 * p1,
   scales.1 * a.z + scales.2 * p2,
   scales.1 * a.w + scales.2 * p3⟩

/-- The two storage constructors `ARRAY_TYPE` can hold (common.ts):
`Float32Array` or plain `Array`. -/
inductive ArrayKind
  | float32Array
  | plainArray
deriving DecidableEq

/-- `setMatrixArrayType` from common.ts: the process-wide setting after the
call is the argument. -/
def setMatrixArrayType (type : ArrayKind) : ArrayKind :=
  type

/-- A freshly allocated two-element storage together with the constructor
that allocated it. -/
structure Elems2 where
  kind : ArrayKind
  e0 : ℚ
  e1 : ℚ
deriving DecidableEq

/-- A freshly allocated three-element storage together with the constructor
that allocated it. -/
structure Elems3 where
  kind : ArrayKind
  e0 : ℚ
  e1 : ℚ
  e2 : ℚ
deriving DecidableEq

/-- A freshly allocated four-element storage together with the constructor
that allocated it. -/
structure Elems4 where
  kind : ArrayKind
  e0 : ℚ
  e1 : ℚ
  e2 : ℚ
  e3 : ℚ
deriving DecidableEq

/-- `vec2Create` from vec2.ts: `new ARRAY_TYPE(2)`, zero-filled explicitly
unless the type is `Float32Array` (which is already zero-initialized); either
way the elements are zero. `currentType` is `ARRAY_TYPE` at the call. -/
def vec2Create (currentType : ArrayKind) : Elems2 :=
  ⟨currentType, 0, 0⟩

/-- `vec2Clone` from vec2.ts: `let out = new Array(2)` — a plain `Array` is
allocated no matter what `ARRAY_TYPE` currently is. -/
def vec2Clone (currentType : ArrayKind) (a : Elems2) : Elems2 :=
  ⟨ArrayKind.plainArray, a.e0, a.e1⟩

/-- `vec2FromValues` from vec2.ts: `new ARRAY_TYPE(2)` filled with x, y. -/
def vec2FromValues (currentType : ArrayKind) (x y : ℚ) : Elems2 :=
  ⟨currentType, x, y⟩

/-- `vec3Clone` from vec3.ts: `new ARRAY_TYPE(3)` filled from `a`. -/
def vec3Clone (currentType : ArrayKind) (a : Elems3) : Elems3 :=
  ⟨currentType, a.e0, a.e1, a.e2⟩

/-- `vec4Clone` from vec4.ts: `new ARRAY_TYPE(4)` filled from `a`. -/
def vec4Clone (currentType : ArrayKind) (a : Elems4) : Elems4 :=
  ⟨currentType, a.e0, a.e1, a.e2, a.e3⟩

/-- `Math.round` in JavaScript: `⌊a + 1/2⌋` (half-values round toward
positive infinity). -/
def jsMathRound (a : ℚ) : ℤ :=
  ⌊a + 1 / 2⌋

/-- JavaScript's truncating division component: `Math.trunc(q)`. -/
def jsTrunc (q : ℚ) : ℤ :=
  if 0 ≤ q then ⌊q⌋ else ⌈q⌉

/-- The JavaScript remainder operator `a % b`: `a - b * trunc(a / b)` (for
finite operands; the result carries the sign of `a`). -/
def jsMod (a b : ℚ) : ℚ :=
  a - b * jsTrunc (a / b)

/-- `round` from common.ts: `Math.round(a)` for `a >= 0`; for negative `a`,
`Math.floor(a)` when `a % 0.5 === 0`, else `Math.round(a)`. -/
def round (a : ℚ) : ℤ :=
  if 0 ≤ a then jsMathRound a
  else if jsMod a (1 / 2) = 0 then ⌊a⌋
  else jsMathRound a

/-- C10: `rectCreate()` returns the unit square `{x: 0, y: 0, width: 1,
height: 1}` — width and height 1, not an all-zero record — so its center is
`(0.5, 0.5)`. -/
theorem rectCreate_spec :
    rectCreate = ⟨0, 0, 1, 1⟩ ∧ rectCreate.width = 1 ∧ rectCreate.height = 1 ∧
    rectCenterX rectCreate = 1 / 2 ∧ rectCenterY rectCreate = 1 / 2 := by
  refine ⟨rfl, rfl, rfl, ?_, ?_⟩ <;> norm_num [rectCreate, rectCenterX, rectCenterY]

/-- C4, evaluation at the failing input: `rectSetCenter` calls
`rectSetCenterX` twice (the second call should be `rectSetCenterY`), so for
the unit square `r = rectCreate` and `c = (5, 7)` the in-place call
`rectSetCenter(r, r, c)` leaves the center at `(7, 1/2)`: the x center takes
`c[1]`, not `c[0]`, and the y center is never written. The claim (and the
spec's "center set as a vector") says the center becomes `(5, 7)`. -/
theorem rectSetCenter_bug :
    rectCenterX (rectSetCenter rectCreate rectCreate ⟨5, 7⟩) = 7 ∧
    rectCenterY (rectSetCenter rectCreate rectCreate ⟨5, 7⟩) = 1 / 2 ∧
    rectCenterX (rectSetCenter rectCreate rectCreate ⟨5, 7⟩) ≠ 5 ∧
    rectCenterY (rectSetCenter rectCreate rectCreate ⟨5, 7⟩) ≠ 7 := by
  refine ⟨?_, ?_, ?_, ?_⟩ <;>
    norm_num [rectSetCenter, rectSetCenterX, rectCenterX, rectCenterY, rectCreate]

/-- C5, evaluation at the failing input: after `setMatrixArrayType(Float32Array)`,
`vec2Clone` still allocates its result with `new Array(2)` — a plain `Array`,
not the configured `Float32Array` — while `vec2Create`, `vec2FromValues`,
`vec3Clone` and `vec4Clone` all honor the configured type. -/
theorem vec2Clone_bug :
    (vec2Clone (setMatrixArrayType ArrayKind.float32Array)
        ⟨ArrayKind.float32Array, 1, 2⟩).kind = ArrayKind.plainArray ∧
    (vec2Create (setMatrixArrayType ArrayKind.float32Array)).kind =
      ArrayKind.float32Array ∧
    (vec2FromValues (setMatrixArrayType ArrayKind.float32Array) 1 2).kind =
      ArrayKind.float32Array ∧
    (vec3Clone (setMatrixArrayType ArrayKind.float32Array)
        ⟨ArrayKind.float32Array, 1, 2, 3⟩).kind = ArrayKind.float32Array ∧
    (vec4Clone (setMatrixArrayType ArrayKind.float32Array)
        ⟨ArrayKind.float32Array, 1, 2, 3, 4⟩).kind = ArrayKind.float32Array ∧
    ArrayKind.plainArray ≠ ArrayKind.float32Array := by
  decide

/-- C1, counterexample to the claim as stated: `quatEquals` is not the
conjunction of the scalar test over the component pairs. For the unit
quaternions `(0,0,0,1)` and `(0,0,0,-1)` (the same rotation represented with
opposite signs), `quatEquals` holds — its aggregate test `|dot| >= 1 - EPSILON`
sees `|(-1)| = 1` — while the scalar test fails on the w component pair
(`|1 - (-1)| = 2 > EPSILON`), so the claimed equivalence is false. -/
theorem quatEquals_counterexample :
    quatEquals ⟨0, 0, 0, 1⟩ ⟨0, 0, 0, -1⟩ = true ∧
    equals 1 (-1) = false ∧
    vec4Equals ⟨0, 0, 0, 1⟩ ⟨0, 0, 0, -1⟩ = false := by
  refine ⟨?_, ?_, ?_⟩ <;>
    norm_num [quatEquals, quatDot, vec4Dot, equals, vec4Equals, EPSILON]

/-- C1, amended: the scalar `equals(a, b)` holds iff
`|a - b| <= EPSILON * max(1, |a|, |b|)`, and `vec2Equals`, `vec3Equals`,
`vec4Equals` and `mat2dEquals` each hold iff that scalar test holds on every
corresponding component pair; `quatEquals`, however, is the aggregate
dot-product test `|quatDot(a, b)| >= 1 - EPSILON`, not a component-wise one. -/
theorem approxEquals_spec :
    (∀ a b : ℚ, equals a b = true ↔ |a - b| ≤ EPSILON * max 1 (max |a| |b|)) ∧
    (∀ a b : Vec2, vec2Equals a b = true ↔
      (equals a.x b.x = true ∧ equals a.y b.y = true)) ∧
    (∀ a b : Vec3, vec3Equals a b = true ↔
      (equals a.x b.x = true ∧ equals a.y b.y = true ∧ equals a.z b.z = true)) ∧
    (∀ a b : Vec4, vec4Equals a b = true ↔
      (equals a.x b.x = true ∧ equals a.y b.y = true ∧ equals a.z b.z = true ∧
        equals a.w b.w = true)) ∧
    (∀ a b : Mat2d, mat2dEquals a b = true ↔
      (equals a.m0 b.m0 = true ∧ equals a.m1 b.m1 = true ∧ equals a.m2 b.m2 = true ∧
        equals a.m3 b.m3 = true ∧ equals a.m4 b.m4 = true ∧ equals a.m5 b.m5 = true)) ∧
    (∀ a b : Quat, quatEquals a b = true ↔ 1 - EPSILON ≤ |quatDot a b|) := by
  refine ⟨?_, ?_, ?_, ?_, ?_, ?_⟩ <;> intro a b <;>
    simp [equals, vec2Equals, vec3Equals, vec4Equals, mat2dEquals, quatEquals,
      and_assoc]

/-- C6: normalizing the zero vector returns the zero vector and divides by
nothing: the squared length is 0, the `len > 0` guard leaves the scale factor
at 0, and every output component is `0 * 0 = 0`. This holds for any value of
the `Math.sqrt` parameter, which is never applied; `quatNormalize` is
definitionally `vec4Normalize`. -/
theorem normalize_zero_spec :
    (∀ sqrt : ℚ → ℚ, vec2Normalize sqrt ⟨0, 0⟩ = ⟨0, 0⟩) ∧
    (∀ sqrt : ℚ → ℚ, vec3Normalize sqrt ⟨0, 0, 0⟩ = ⟨0, 0, 0⟩) ∧
    (∀ sqrt : ℚ → ℚ, vec4Normalize sqrt ⟨0, 0, 0, 0⟩ = ⟨0, 0, 0, 0⟩) ∧
    quatNormalize = vec4Normalize := by
  refine ⟨?_, ?_, ?_, rfl⟩ <;> intro sqrt <;>
    norm_num [vec2Normalize, vec3Normalize, vec4Normalize]

/-- C2, counterexample to the claim as stated: for the source square of side
2 at the origin (center `(1, 1)`) and the target square of side 4 at the
origin (center `(2, 2)`), `vec2TransformMat2d` maps the source center through
`rectUntransformMat2d(source, target)` to `(3, 3)`, not to the target center
`(2, 2)` — the matrix's translation is the raw center difference, which
point-transformation composes after the scale. -/
theorem rectUntransformMat2d_counterexample :
    vec2TransformMat2d (rectCenter ⟨0, 0, 2, 2⟩)
        (rectUntransformMat2d ⟨0, 0, 2, 2⟩ ⟨0, 0, 4, 4⟩) = ⟨3, 3⟩ ∧
    rectCenter (⟨0, 0, 4, 4⟩ : Rect) = ⟨2, 2⟩ ∧
    ((⟨3, 3⟩ : Vec2) ≠ ⟨2, 2⟩) := by
  refine ⟨?_, ?_, by decide⟩ <;>
    norm_num [vec2TransformMat2d, rectCenter, rectCenterX, rectCenterY,
      rectUntransformMat2d]

/-- C7, counterexample to the claim as stated: for the unit quaternions
`a = (0,0,0,1)` and `b = (0,0,0,-1)` (antipodal, dot product -1), the
shortest-path sign flip makes `quatSlerp(a, b, 1)` equal `-b = (0,0,0,1)`,
which is not component-wise approximately equal to `b`. The trig parameters
are irrelevant here (the linear fallback branch runs); `id` is passed for
both. -/
theorem quatSlerp_counterexample :
    quatDot ⟨0, 0, 0, 1⟩ ⟨0, 0, 0, 1⟩ = 1 ∧
    quatDot ⟨0, 0, 0, -1⟩ ⟨0, 0, 0, -1⟩ = 1 ∧
    quatSlerp id id ⟨0, 0, 0, 1⟩ ⟨0, 0, 0, -1⟩ 1 = ⟨0, 0, 0, 1⟩ ∧
    vec4Equals (quatSlerp id id ⟨0, 0, 0, 1⟩ ⟨0, 0, 0, -1⟩ 1) ⟨0, 0, 0, -1⟩ = false := by
  refine ⟨?_, ?_, ?_, ?_⟩ <;>
    norm_num [quatDot, vec4Dot, quatSlerp, vec4Equals, EPSILON, Vec4.mk.injEq]

/-- C3: when the determinant `a[0]*a[3] - a[1]*a[2]` is exactly zero,
`mat2dInvert(out, a)` returns the `null` sentinel with every component of
`out` unchanged (the source returns before writing); when the determinant is
nonzero it fills `out` with the genuine inverse — its affine product with `a`
in either order is the identity — and returns that filled buffer. -/
theorem mat2dInvert_spec (out a : Mat2d) :
    (mat2dDeterminant a = 0 → mat2dInvert out a = (out, none)) ∧
    (mat2dDeterminant a ≠ 0 →
      ∃ m : Mat2d, mat2dInvert out a = (m, some m) ∧
        mat2dMultiply a m = mat2dIdentity ∧ mat2dMultiply m a = mat2dIdentity) := by
  have hdet : mat2dDeterminant a = a.m0 * a.m3 - a.m1 * a.m2 := rfl
  constructor
  · intro h
    rw [hdet] at h
    simp [mat2dInvert, h]
  · intro h
    rw [hdet] at h
    refine ⟨(mat2dInvert out a).1, ?_, ?_, ?_⟩
    · simp [mat2dInvert, h]
    · simp only [mat2dInvert, h, ite_false, if_neg, mat2dMultiply, mat2dIdentity,
        Mat2d.mk.injEq]
      refine ⟨?_, ?_, ?_, ?_, ?_, ?_⟩ <;> field_simp <;> ring
    · simp only [mat2dInvert, h, ite_false, if_neg, mat2dMultiply, mat2dIdentity,
        Mat2d.mk.injEq]
      refine ⟨?_, ?_, ?_, ?_, ?_, ?_⟩ <;> field_simp <;> ring

/-- C2, amended: `rectUntransformMat2d(source, target)` (source sizes
nonzero) is the matrix that maps the source rectangle onto the target
rectangle under the library's own quad transform semantics — transforming
the quad of the source by it with `quad2dTransformMat2d` (which composes the
linear parts and adds the translation to the quad's center) yields exactly
the quad of the target, center to center and size to size. Under
`vec2TransformMat2d` point semantics the source center does not in general
map to the target center. -/
theorem rectUntransformMat2d_quad_spec (source target : Rect)
    (hw : source.width ≠ 0) (hh : source.height ≠ 0) :
    quad2dTransformMat2d (quad2dFromRect source) (rectUntransformMat2d source target) =
      quad2dFromRect target := by
  simp only [quad2dTransformMat2d, quad2dFromRect, rectUntransformMat2d, mat2Multiply,
    mat2dLinear, rectCenterX, rectCenterY, Quad2d.mk.injEq, Mat2.mk.injEq, Vec2.mk.injEq]
  refine ⟨⟨?_, ?_, ?_, ?_⟩, ?_, ?_⟩ <;> field_simp <;> ring

/-- C2, witness: the amended statement at the concrete source square of side
2 and target square of side 4 used by the counterexample. -/
theorem rectUntransformMat2d_quad_witness :
    quad2dTransformMat2d (quad2dFromRect ⟨0, 0, 2, 2⟩)
        (rectUntransformMat2d ⟨0, 0, 2, 2⟩ ⟨0, 0, 4, 4⟩) = quad2dFromRect ⟨0, 0, 4, 4⟩ :=
  rectUntransformMat2d_quad_spec ⟨0, 0, 2, 2⟩ ⟨0, 0, 4, 4⟩ (by norm_num) (by norm_num)

/-- C9: fitting a 16:9 source rect (width `16k`, height `9k`, `k > 0`) into
the 400x300 target at the origin with `rectContain` letterboxes it: the
scale `min(400/(16k), 300/(9k)) = 25/k` gives size 400x225, recentered on
the target's center `(200, 150)`. -/
theorem rectContain_letterbox_spec (out : Rect) (sx sy k : ℚ) (hk : 0 < k) :
    (rectContain out ⟨sx, sy, 16 * k, 9 * k⟩ ⟨0, 0, 400, 300⟩).width = 400 ∧
    (rectContain out ⟨sx, sy, 16 * k, 9 * k⟩ ⟨0, 0, 400, 300⟩).height = 225 ∧
    rectCenterX (rectContain out ⟨sx, sy, 16 * k, 9 * k⟩ ⟨0, 0, 400, 300⟩) = 200 ∧
    rectCenterY (rectContain out ⟨sx, sy, 16 * k, 9 * k⟩ ⟨0, 0, 400, 300⟩) = 150 := by
  have hk0 : k ≠ 0 := ne_of_gt hk
  have hmin : min ((400 : ℚ) / (16 * k)) ((300 : ℚ) / (9 * k)) = 400 / (16 * k) := by
    apply min_eq_left
    rw [div_le_div_iff₀ (by positivity) (by positivity)]
    nlinarith
  refine ⟨?_, ?_, ?_, ?_⟩ <;>
    · simp only [rectContain, rectFit, rectCopyCenter, rectSetCenterX, rectSetCenterY,
        rectCenterX, rectCenterY, hmin]
      field_simp
      try ring

/-- C9, witness: the concrete instance `k = 1` (a 16x9 source). -/
theorem rectContain_letterbox_witness :
    (rectContain ⟨0, 0, 1, 1⟩ ⟨0, 0, 16 * 1, 9 * 1⟩ ⟨0, 0, 400, 300⟩).width = 400 ∧
    (rectContain ⟨0, 0, 1, 1⟩ ⟨0, 0, 16 * 1, 9 * 1⟩ ⟨0, 0, 400, 300⟩).height = 225 ∧
    rectCenterX (rectContain ⟨0, 0, 1, 1⟩ ⟨0, 0, 16 * 1, 9 * 1⟩ ⟨0, 0, 400, 300⟩) = 200 ∧
    rectCenterY (rectContain ⟨0, 0, 1, 1⟩ ⟨0, 0, 16 * 1, 9 * 1⟩ ⟨0, 0, 400, 300⟩) = 150 :=
  rectContain_letterbox_spec ⟨0, 0, 1, 1⟩ 0 0 1 (by norm_num)

/-- Evaluation of `quatSlerp` at the endpoints, for any trig parameters with
`sin 0 = 0` and `sin (acos c)` nonzero on the range the slerp branch uses:
at `t = 0` the result is exactly `a`; at `t = 1` it is exactly `b`, negated
when the initial cosine was negative (the shortest-path flip). -/
theorem quatSlerp_endpoint_eval (acos sin : ℚ → ℚ) (a b : Quat)
    (hsin0 : sin 0 = 0)
    (hsinom : ∀ c : ℚ, 0 ≤ c → 1 - c > EPSILON → sin (acos c) ≠ 0) :
    quatSlerp acos sin a b 0 = a ∧
    quatSlerp acos sin a b 1 =
      (if a.x * b.x + a.y * b.y + a.z * b.z + a.w * b.w < 0 then
        ⟨-b.x, -b.y, -b.z, -b.w⟩ else b) := by
  simp only [quatSlerp]
  by_cases hneg : a.x * b.x + a.y * b.y + a.z * b.z + a.w * b.w < 0
  · simp only [if_pos hneg]
    have hge : (0 : ℚ) ≤ -(a.x * b.x + a.y * b.y + a.z * b.z + a.w * b.w) := by linarith
    by_cases hbr :
        1 - -(a.x * b.x + a.y * b.y + a.z * b.z + a.w * b.w) > EPSILON
    · have hs := hsinom _ hge hbr
      simp only [if_pos hbr, sub_zero, sub_self, one_mul, zero_mul, hsin0, zero_div,
        div_self hs, add_zero, zero_add]
      constructor <;> trivial
    · simp only [if_neg hbr, sub_zero, sub_self, one_mul, zero_mul, add_zero, zero_add]
      constructor <;> trivial
  · simp only [if_neg hneg]
    have hge : (0 : ℚ) ≤ a.x * b.x + a.y * b.y + a.z * b.z + a.w * b.w := not_lt.mp hneg
    by_cases hbr : 1 - (a.x * b.x + a.y * b.y + a.z * b.z + a.w * b.w) > EPSILON
    · have hs := hsinom _ hge hbr
      simp only [if_pos hbr, sub_zero, sub_self, one_mul, zero_mul, hsin0, zero_div,
        div_self hs, add_zero, zero_add]
      constructor <;> trivial
    · simp only [if_neg hbr, sub_zero, sub_self, one_mul, zero_mul, add_zero, zero_add]
      constructor <;> trivial

/-- C7, amended: for unit quaternions `a` and `b` (and trig parameters
satisfying the algebraic facts the source relies on), `quatSlerp(a, b, 0)`
equals `a` exactly, hence is component-wise approximately equal to `a`;
`quatSlerp(a, b, 1)` equals `b` exactly when `quatDot(a, b) >= 0`, but when
the dot product is negative the shortest-path flip makes it exactly `-b`,
which represents the same rotation (`quatEquals` with `b` still holds) but
is not component-wise approximately equal to `b`. -/
theorem quatSlerp_boundary_spec (acos sin : ℚ → ℚ) (a b : Quat)
    (hsin0 : sin 0 = 0)
    (hsinom : ∀ c : ℚ, 0 ≤ c → 1 - c > EPSILON → sin (acos c) ≠ 0)
    (ha : quatDot a a = 1) (hb : quatDot b b = 1) :
    quatSlerp acos sin a b 0 = a ∧
    (0 ≤ quatDot a b → quatSlerp acos sin a b 1 = b) ∧
    (quatDot a b < 0 →
      quatSlerp acos sin a b 1 = ⟨-b.x, -b.y, -b.z, -b.w⟩ ∧
      quatEquals (quatSlerp acos sin a b 1) b = true) := by
  obtain ⟨h0, h1⟩ := quatSlerp_endpoint_eval acos sin a b hsin0 hsinom
  have hdot : quatDot a b = a.x * b.x + a.y * b.y + a.z * b.z + a.w * b.w := rfl
  refine ⟨h0, ?_, ?_⟩
  · intro hge
    rw [h1, if_neg (not_lt.mpr (hdot ▸ hge))]
  · intro hlt
    have hneg : a.x * b.x + a.y * b.y + a.z * b.z + a.w * b.w < 0 := hdot ▸ hlt
    have hflip : quatSlerp acos sin a b 1 = ⟨-b.x, -b.y, -b.z, -b.w⟩ := by
      rw [h1, if_pos hneg]
    refine ⟨hflip, ?_⟩
    rw [hflip]
    have hnegdot : quatDot ⟨-b.x, -b.y, -b.z, -b.w⟩ b = -(quatDot b b) := by
      simp only [quatDot, vec4Dot]
      ring
    simp only [quatEquals, decide_eq_true_eq, hnegdot, hb]
    norm_num [EPSILON]

/-- C7, witness: the amended statement at `a = b = (0, 0, 0, 1)` with
`acos c = 1 - c` and `sin = id`, which satisfy the trig hypotheses. -/
theorem quatSlerp_boundary_witness :
    quatSlerp (fun c => 1 - c) id ⟨0, 0, 0, 1⟩ ⟨0, 0, 0, 1⟩ 0 = ⟨0, 0, 0, 1⟩ ∧
    quatSlerp (fun c => 1 - c) id ⟨0, 0, 0, 1⟩ ⟨0, 0, 0, 1⟩ 1 = ⟨0, 0, 0, 1⟩ := by
  have h := quatSlerp_boundary_spec (fun c => 1 - c) id ⟨0, 0, 0, 1⟩ ⟨0, 0, 0, 1⟩ rfl
    (fun c hc hlt => ne_of_gt (lt_trans (by norm_num [EPSILON]) hlt))
    (by norm_num [quatDot, vec4Dot]) (by norm_num [quatDot, vec4Dot])
  exact ⟨h.1, h.2.1 (by norm_num [quatDot, vec4Dot])⟩

/-- C8: `round` rounds half-values away from zero for non-negative inputs
(at a fractional part of one half the result is `a + 1/2`, the upper
integer, so `round(0.5) = 1` and `round(2.5) = 3`); a negative input whose
fractional part is exactly one half is floored (`round(-2.5) = -3`); and
every input whose fractional part is not one half goes to its nearest
integer (distance strictly below one half). -/
theorem round_spec :
    (∀ a : ℚ, 0 ≤ a → Int.fract a = 1 / 2 → (round a : ℚ) = a + 1 / 2) ∧
    (∀ a : ℚ, a < 0 → Int.fract a = 1 / 2 → round a = ⌊a⌋) ∧
    (∀ a : ℚ, Int.fract a ≠ 1 / 2 → |(round a : ℚ) - a| < 1 / 2) ∧
    round (1 / 2) = 1 ∧ round (5 / 2) = 3 ∧ round (-(5 / 2)) = -3 := by
  have hfr : ∀ a : ℚ, Int.fract a = a - ⌊a⌋ := fun a => rfl
  refine ⟨?_, ?_, ?_, ?_, ?_, ?_⟩
  · intro a h0 hf
    rw [hfr] at hf
    unfold round jsMathRound
    rw [if_pos h0]
    have h1 : a + 1 / 2 = ((⌊a⌋ + 1 : ℤ) : ℚ) := by push_cast; linarith
    rw [h1, Int.floor_intCast]
  · intro a hn hf
    rw [hfr] at hf
    have hmod : jsMod a (1 / 2) = 0 := by
      unfold jsMod jsTrunc
      rw [show a / (1 / 2) = 2 * a by ring]
      have h2a : 2 * a = ((2 * ⌊a⌋ + 1 : ℤ) : ℚ) := by push_cast; linarith
      rw [if_neg (by push_neg; linarith), h2a, Int.ceil_intCast]
      push_cast
      linarith
    unfold round
    rw [if_neg (not_le.mpr hn), if_pos hmod]
  · intro a hf
    have hf0 := Int.fract_nonneg a
    have hf1 := Int.fract_lt_one a
    rw [hfr] at hf hf0 hf1
    rcases lt_or_gt_of_ne hf with hlt | hgt
    · have hfl : ⌊a + 1 / 2⌋ = ⌊a⌋ := by
        rw [Int.floor_eq_iff]
        constructor <;> [push_cast; push_cast] <;> linarith
      have hround : round a = ⌊a⌋ := by
        unfold round jsMathRound
        split_ifs with h1 h2
        · exact hfl
        · rfl
        · exact hfl
      rw [hround, abs_lt]
      constructor <;> linarith
    · have hfl : ⌊a + 1 / 2⌋ = ⌊a⌋ + 1 := by
        rw [Int.floor_eq_iff]
        constructor <;> push_cast <;> linarith
      have hmod : ¬jsMod a (1 / 2) = 0 := by
        intro hm
        unfold jsMod at hm
        rw [show a / (1 / 2) = 2 * a by ring] at hm
        have hat : a = (jsTrunc (2 * a) : ℚ) / 2 := by linarith
        rcases Int.even_or_odd (jsTrunc (2 * a)) with ⟨u, hu⟩ | ⟨u, hu⟩
        · have hau : a = (u : ℚ) := by rw [hat, hu]; push_cast; ring
          have : Int.fract a = 0 := by rw [hau]; exact Int.fract_intCast u
          rw [hfr] at this
          linarith
        · have hau : a = (u : ℚ) + 1 / 2 := by rw [hat, hu]; push_cast; ring
          have h12 : Int.fract a = 1 / 2 := by
            rw [hau, Int.fract_int_add]
            norm_num [Int.fract]
          rw [hfr] at h12
          linarith
      have hround : round a = ⌊a⌋ + 1 := by
        unfold round jsMathRound
        split_ifs <;> exact hfl
      rw [hround, abs_lt]
      constructor <;> push_cast <;> linarith
  · norm_num [round, jsMathRound]
  · norm_num [round, jsMathRound]
  · have hm : jsMod (-(5 / 2) : ℚ) (1 / 2) = 0 := by
      unfold jsMod jsTrunc
      rw [show ((-(5 / 2) : ℚ) / (1 / 2)) = ((-5 : ℤ) : ℚ) by norm_num]
      rw [if_neg (by norm_num), Int.ceil_intCast]
      norm_num
    unfold round
    rw [if_neg (show ¬(0 : ℚ) ≤ -(5 / 2) by norm_num), if_pos hm]
    norm_num

end GlMatrix
